import Mathlib

/-!
Verification of the camera geometry utilities in `src/utils/viewer_utils.py`
(orthographic / perspective projection-matrix constructors and the `OrbitCamera`
state machine).

Modelling conventions.
* Python floats are modelled as exact rationals (`ℚ`); every claim below that
  speaks of floating-point tolerance is settled exactly in `ℚ`.
* The external libraries numpy / scipy are not repository code.  The two
  transcendental operations the file uses (`np.tan` / `math.tan`, and
  `scipy.spatial.transform.Rotation.from_rotvec`) and the constant `π/180`
  hidden in `np.radians` are abstracted as the fields of a `MathLib`
  structure, carrying exactly the contracts scipy documents for them
  (`from_rotvec` of the zero vector is the identity and every `from_rotvec`
  result is a rotation matrix).  All repository-side arithmetic is embedded
  literally.
* Python exceptions are modelled by `Except PyErr`; falling off the end of a
  Python function (returning `None`) is modelled by `Option`.
-/

open Matrix

/-- The Python exception classes the embedded code can raise. -/
inductive PyErr where
  | valueError
  | indexError
deriving DecidableEq, Repr

/-- The numerical-library operations `viewer_utils.py` imports from numpy and
scipy, abstracted with the contracts those libraries document:
`deg2rad` is the constant `np.radians` multiplies by (`π/180` in the float
model), `tan` is `np.tan`/`math.tan`, and `fromRotvec` is
`R.from_rotvec(v).as_matrix()` — the rotation by angle `‖v‖` about axis `v`,
which is the identity at `v = 0` and always an orthonormal matrix of
determinant one. -/
structure MathLib where
  deg2rad : ℚ
  tan : ℚ → ℚ
  fromRotvec : (Fin 3 → ℚ) → Matrix (Fin 3) (Fin 3) ℚ
  fromRotvec_zero : fromRotvec 0 = 1
  fromRotvec_orth : ∀ v, fromRotvec v * (fromRotvec v)ᵀ = 1
  fromRotvec_det : ∀ v, (fromRotvec v).det = 1

/-- `np.radians(x) = x * (π/180)`: scaling by the library's conversion
constant. -/
def MathLib.radians (M : MathLib) (x : ℚ) : ℚ :=
  x * M.deg2rad

/-- A `MathLib` instance used to instantiate theorems at concrete inputs
(`fromRotvec` constantly the identity satisfies every contract field). -/
def trivMathLib : MathLib where
  deg2rad := 0
  tan := fun _ => 0
  fromRotvec := fun _ => 1
  fromRotvec_zero := rfl
  fromRotvec_orth := fun _ => by simp
  fromRotvec_det := fun _ => by simp

/-- `getOrthProjectionMatrix_numpy(znear, zfar, scale)`
(`src/utils/viewer_utils.py:18-47`): the symmetric orthographic projection
matrix.  `width = height = 1/scale`, `top = height/2 = -bottom`,
`right = width/2 = -left`; the matrix starts as zeros and the listed entries
are assigned. -/
def getOrthProjectionMatrix_numpy (znear zfar scale : ℚ) : Matrix (Fin 4) (Fin 4) ℚ :=
  let width : ℚ := 1 / scale
  let height : ℚ := 1 / scale
  let top : ℚ := height / 2
  let bottom : ℚ := -top
  let right : ℚ := width / 2
  let left : ℚ := -right
  Matrix.of fun i j =>
    if i = 0 ∧ j = 0 then 2 / (right - left)
    else if i = 1 ∧ j = 1 then 2 / (top - bottom)
    else if i = 2 ∧ j = 2 then -2 / (zfar - znear)
    else if i = 0 ∧ j = 3 then -(right + left) / (right - left)
    else if i = 1 ∧ j = 3 then -(top + bottom) / (top - bottom)
    else if i = 2 ∧ j = 3 then -(zfar + znear) / (zfar - znear)
    else if i = 3 ∧ j = 3 then 1
    else 0

/-- The per-element computation of `projection_from_intrinsics`
(`src/utils/viewer_utils.py:90-101`): a zero 4×4 matrix whose listed entries
are assigned from `fx, fy, cx, cy`, followed by the `flip_y` step
`proj[:, 1, 1] *= -1`. -/
def perspElem (fx fy cx cy h w near far z_sign : ℚ) (flip_y : Bool) :
    Matrix (Fin 4) (Fin 4) ℚ :=
  let proj : Matrix (Fin 4) (Fin 4) ℚ :=
    !![fx * 2 / w, 0, (w - 2 * cx) / w, 0;
       0, fy * 2 / h, (h - 2 * cy) / h, 0;
       0, 0, z_sign * (far + near) / (far - near), -2 * far * near / (far - near);
       0, 0, z_sign, 0]
  if flip_y then Matrix.of fun i j => if i = 1 ∧ j = 1 then -proj i j else proj i j
  else proj

/-- `projection_from_intrinsics` on a well-formed batch of 3×3 intrinsic
matrices (the `K.shape[-2:] == (3, 3)` branch, `src/utils/viewer_utils.py:76-80`):
`fx = K[...,0,0]`, `fy = K[...,1,1]`, `cx = K[...,0,2]`, `cy = K[...,1,2]`. -/
def projection_from_intrinsics_mats (Ks : List (Matrix (Fin 3) (Fin 3) ℚ))
    (h w near far z_sign : ℚ) (flip_y : Bool) : List (Matrix (Fin 4) (Fin 4) ℚ) :=
  Ks.map fun K => perspElem (K 0 0) (K 1 1) (K 0 2) (K 1 2) h w near far z_sign flip_y

/-- The per-element arithmetic of the `K.shape[-1] == 4` branch of
`projection_from_intrinsics` (`src/utils/viewer_utils.py:81-86`): the values
the `(fx, fy, cx, cy)` 4-vector entries produce.  This is only the value
computation; the branch as executed by numpy on an `(N, 4)` array completes
solely for `N = 1` — see `projection_from_intrinsics_vec_batch`. -/
def projection_from_intrinsics_vecs (Ks : List (Fin 4 → ℚ))
    (h w near far z_sign : ℚ) (flip_y : Bool) : List (Matrix (Fin 4) (Fin 4) ℚ) :=
  Ks.map fun K => perspElem (K 0) (K 1) (K 2) (K 3) h w near far z_sign flip_y

/-- The `K.shape[-1] == 4` branch of `projection_from_intrinsics` as executed
on an `(N, 4)` array (`src/utils/viewer_utils.py:81-101`).  The slices
`fx = K[..., [0]]` … `cy = K[..., [3]]` (lines 83-86) keep the sliced axis, so
they have shape `(N, 1)`.  Line 91 assigns `fx * 2 / w` into `proj[:, 0, 0]`,
a view of shape `(N,)`: numpy broadcasts an array into an assignment target of
lower rank only by squeezing leading length-1 axes, so the assignment succeeds
exactly when `N = 1` and otherwise raises
`ValueError: could not broadcast input array from shape (N,1) into shape (N,)`. -/
def projection_from_intrinsics_vec_batch (Ks : List (Fin 4 → ℚ))
    (h w near far z_sign : ℚ) (flip_y : Bool) :
    Except PyErr (List (Matrix (Fin 4) (Fin 4) ℚ)) :=
  if Ks.length = 1 then .ok (projection_from_intrinsics_vecs Ks h w near far z_sign flip_y)
  else .error .valueError

/-- The shape handling of `projection_from_intrinsics`
(`src/utils/viewer_utils.py:73-88`) as a function of the numpy shape tuple of
`K`.  `B = K.shape[0]` (line 73) raises `IndexError` on an empty shape; then
`K.shape[-2:] == (3, 3)` accepts, `K.shape[-1] == 4` accepts, and otherwise
line 88 raises `ValueError` (the spec's `InvalidArgument`).  Python's
`t[-2:]` on a tuple of length < 2 is the whole tuple, which
`List.drop (length - 2)` reproduces under truncated subtraction. -/
def projection_from_intrinsics_shape_check (shape : List ℕ) : Except PyErr Unit :=
  if shape = [] then .error .indexError
  else if shape.drop (shape.length - 2) = [3, 3] then .ok ()
  else if shape.getLastD 0 = 4 then .ok ()
  else .error .valueError

/-- The spec's phrase "a batch of 3×3 intrinsic matrices": a numpy shape of
the form `(N, 3, 3)`. -/
def isBatchOf33 (shape : List ℕ) : Bool :=
  match shape with
  | [_, 3, 3] => true
  | _ => false

/-- The spec's phrase "a batch of 4-vectors `(fx, fy, cx, cy)`": a numpy
shape of the form `(N, 4)`. -/
def isBatchOf4 (shape : List ℕ) : Bool :=
  match shape with
  | [_, 4] => true
  | _ => false

/-- The construction-time parameters of `OrbitCamera.__init__`
(`src/utils/viewer_utils.py:106-119`), fixed for the lifetime of the camera.
The persistence path is omitted: the file-system snapshot is out of scope and
construction is modelled in the documented "missing snapshot file" case, where
`load()` returns without touching the state. -/
structure CameraConfig where
  image_width : ℕ
  image_height : ℕ
  radius_default : ℚ
  fovy_default : ℚ
  znear : ℚ
  zfar : ℚ
  scale : ℚ
  convention : String
  projection : String
deriving DecidableEq, Repr

/-- The mutable state of an `OrbitCamera`: `rot`, `look_at`, `radius`, `fovy`
and the convention-derived signs set by `reset`
(`src/utils/viewer_utils.py:125-140`). -/
structure CameraState where
  rot : Matrix (Fin 3) (Fin 3) ℚ
  look_at : Fin 3 → ℚ
  radius : ℚ
  fovy : ℚ
  z_sign : ℚ
  y_sign : ℚ
deriving DecidableEq

namespace OrbitCamera

/-- `self.up = np.array([0, 1, 0])` (`src/utils/viewer_utils.py:121`): the
fixed world up vector, set once at construction and never mutated. -/
def up : Fin 3 → ℚ :=
  ![0, 1, 0]

/-- `OrbitCamera.reset` (`src/utils/viewer_utils.py:125-140`): identity
rotation, `look_at = (0,0,0)`, defaults for `radius` and `fovy`, and the
convention-derived signs; an unknown convention string raises `ValueError`. -/
def reset (cfg : CameraConfig) : Except PyErr CameraState :=
  if cfg.convention = "opencv" then
    .ok ⟨1, ![0, 0, 0], cfg.radius_default, cfg.fovy_default, 1, 1⟩
  else if cfg.convention = "opengl" then
    .ok ⟨1, ![0, 0, 0], cfg.radius_default, cfg.fovy_default, -1, -1⟩
  else
    .error .valueError

/-- `OrbitCamera.__init__` (`src/utils/viewer_utils.py:106-123`): stores the
construction parameters and calls `reset()` then `load()`.  With no saved
snapshot present, `load()` returns immediately (`src/utils/viewer_utils.py:156-157`),
so construction is `reset`.  Note that the `projection` argument is never
validated anywhere in `__init__` or `reset`. -/
def initCamera (cfg : CameraConfig) : Except PyErr CameraState :=
  reset cfg

/-- The `intrinsics` property (`src/utils/viewer_utils.py:169-172`):
`focal = H / (2 * tan(radians(fovy) / 2))` and the 4-vector
`[focal, focal, W // 2, H // 2]` (integer floor division for the principal
point). -/
def intrinsics (M : MathLib) (cfg : CameraConfig) (st : CameraState) : Fin 4 → ℚ :=
  let focal : ℚ := (cfg.image_height : ℚ) / (2 * M.tan (M.radians st.fovy / 2))
  ![focal, focal, ((cfg.image_width / 2 : ℕ) : ℚ), ((cfg.image_height / 2 : ℕ) : ℚ)]

/-- The `projection_matrix` property (`src/utils/viewer_utils.py:174-182`):
for `"perspective"` it calls `projection_from_intrinsics` on the one-element
batch `intrinsics[None]` (a batch of one 4-vector) with
`(image_height, image_width)`, `znear`, `zfar` and the camera's `z_sign`, and
takes element `[0]`; for `"orthogonal"` it calls
`getOrthProjectionMatrix_numpy`; any other kind falls through both `if`s and
the property returns `None`.  The one-element batch is the `N = 1` case, in
which the numpy broadcast of the `(1, 1)` slices succeeds (see
`projection_from_intrinsics_vec_batch`), so the per-element value computation
is the executed behavior here. -/
def projection_matrix (M : MathLib) (cfg : CameraConfig) (st : CameraState) :
    Option (Matrix (Fin 4) (Fin 4) ℚ) :=
  if cfg.projection = "perspective" then
    some ((projection_from_intrinsics_vecs [intrinsics M cfg st]
      (cfg.image_height : ℚ) (cfg.image_width : ℚ) cfg.znear cfg.zfar st.z_sign false).headI)
  else if cfg.projection = "orthogonal" then
    some (getOrthProjectionMatrix_numpy cfg.znear cfg.zfar cfg.scale)
  else
    none

/-- The `pose` property (`src/utils/viewer_utils.py:192-212`): start from
`eye(4)`, add `radius` to entry `(2,3)`, left-multiply by the rotation
embedded in `eye(4)`, subtract `look_at` from rows 0–2 of column 3, and for
the OpenCV convention negate columns 1 and 2 of the whole 4×4; an unknown
convention raises `ValueError`. -/
def pose (cfg : CameraConfig) (st : CameraState) :
    Except PyErr (Matrix (Fin 4) (Fin 4) ℚ) :=
  let pose0 : Matrix (Fin 4) (Fin 4) ℚ := 1 + Matrix.stdBasisMatrix 2 3 st.radius
  let rot4 : Matrix (Fin 4) (Fin 4) ℚ :=
    Matrix.of fun i j =>
      if hi : (i : ℕ) < 3 then
        if hj : (j : ℕ) < 3 then st.rot ⟨i, hi⟩ ⟨j, hj⟩
        else (1 : Matrix (Fin 4) (Fin 4) ℚ) i j
      else (1 : Matrix (Fin 4) (Fin 4) ℚ) i j
  let pose1 : Matrix (Fin 4) (Fin 4) ℚ := rot4 * pose0
  let pose2 : Matrix (Fin 4) (Fin 4) ℚ :=
    Matrix.of fun i j =>
      if j = 3 then
        if hi : (i : ℕ) < 3 then pose1 i j - st.look_at ⟨i, hi⟩ else pose1 i j
      else pose1 i j
  if cfg.convention = "opencv" then
    .ok (Matrix.of fun i j => if j = 1 ∨ j = 2 then -pose2 i j else pose2 i j)
  else if cfg.convention = "opengl" then
    .ok pose2
  else
    .error .valueError

/-- `OrbitCamera.orbit` (`src/utils/viewer_utils.py:214-219`): `side` is
column 0 of the current rotation matrix, `rotvec_x = up * radians(-0.3*dx)`,
`rotvec_y = side * radians(-0.3*dy)`, and the new rotation is
`from_rotvec(rotvec_x) * from_rotvec(rotvec_y) * rot` (scipy composition is
matrix multiplication in the same order). -/
def orbit (M : MathLib) (st : CameraState) (dx dy : ℚ) : CameraState :=
  let side : Fin 3 → ℚ := fun i => st.rot i 0
  let rotvec_x : Fin 3 → ℚ := fun i => up i * M.radians (-0.3 * dx)
  let rotvec_y : Fin 3 → ℚ := fun i => side i * M.radians (-0.3 * dy)
  { st with rot := M.fromRotvec rotvec_x * M.fromRotvec rotvec_y * st.rot }

/-- The body of the method `OrbitCamera.scale` (`src/utils/viewer_utils.py:221-222`,
the spec's `zoom`): `radius *= 1.1 ** (-delta)`, on integer scroll deltas.
Note that this method is unreachable through normal attribute access: line 116
of `__init__` executes `self.scale = scale`, so the instance attribute `scale`
holds the orthographic-scale float and shadows the method. -/
def scale_method (st : CameraState) (delta : ℤ) : CameraState :=
  { st with radius := st.radius * (11 / 10 : ℚ) ^ (-delta) }

/-- `OrbitCamera.pan` (`src/utils/viewer_utils.py:224-227`): the local
displacement `d = (dx, -dy, dz)` rotated into world space and scaled by
`2 * radius / image_height * tan(radians(fovy) / 2)`, added to `look_at`. -/
def pan (M : MathLib) (cfg : CameraConfig) (st : CameraState) (dx dy dz : ℚ) :
    CameraState :=
  let d : Fin 3 → ℚ := ![dx, -dy, dz]
  { st with look_at := st.look_at +
      fun i => 2 * st.rot.mulVec d i * st.radius / (cfg.image_height : ℚ)
        * M.tan (M.radians st.fovy / 2) }

/-- One mutating `OrbitCamera` operation (the spec's §4.3 interaction set). -/
inductive CamOp where
  | reset
  | orbit (dx dy : ℚ)
  | pan (dx dy dz : ℚ)
  | zoom (delta : ℤ)

/-- Apply one mutating operation to the camera state. -/
def applyOp (M : MathLib) (cfg : CameraConfig) (st : CameraState) :
    CamOp → Except PyErr CameraState
  | .reset => reset cfg
  | .orbit dx dy => .ok (orbit M st dx dy)
  | .pan dx dy dz => .ok (pan M cfg st dx dy dz)
  | .zoom delta => .ok (scale_method st delta)

/-- Apply a sequence of mutating operations, stopping at the first raised
exception. -/
def applyOps (M : MathLib) (cfg : CameraConfig) (st : CameraState) :
    List CamOp → Except PyErr CameraState
  | [] => .ok st
  | op :: ops => (applyOp M cfg st op).bind fun st1 => applyOps M cfg st1 ops

end OrbitCamera

/-- A 3×3 matrix is an orthonormal rotation: its transpose is a two-sided
inverse and its determinant is one. -/
def IsRotationMatrix (A : Matrix (Fin 3) (Fin 3) ℚ) : Prop :=
  A * Aᵀ = 1 ∧ A.det = 1

deriving instance DecidableEq for Except

/-- Helper: the closed form of a `perspElem` matrix with `flip_y = false`. -/
theorem perspElem_false_eq (fx fy cx cy h w near far zs : ℚ) :
    perspElem fx fy cx cy h w near far zs false
      = !![2 * fx / w, 0, (w - 2 * cx) / w, 0;
           0, 2 * fy / h, (h - 2 * cy) / h, 0;
           0, 0, zs * (far + near) / (far - near), -2 * far * near / (far - near);
           0, 0, zs, 0] := by
  unfold perspElem
  ext i j
  fin_cases i <;> fin_cases j <;> simp <;> ring

/-- Helper: the closed form of a `perspElem` matrix with `flip_y = true`:
only entry `(1,1)` changes sign. -/
theorem perspElem_true_eq (fx fy cx cy h w near far zs : ℚ) :
    perspElem fx fy cx cy h w near far zs true
      = !![2 * fx / w, 0, (w - 2 * cx) / w, 0;
           0, -(2 * fy / h), (h - 2 * cy) / h, 0;
           0, 0, zs * (far + near) / (far - near), -2 * far * near / (far - near);
           0, 0, zs, 0] := by
  unfold perspElem
  ext i j
  fin_cases i <;> fin_cases j <;> simp <;> ring

/-- C1: the body of `OrbitCamera.scale` (the spec's `zoom`) multiplies
`radius` by `1.1 ^ (-delta)` and touches nothing else, so `zoom(1)` followed
by `zoom(-1)` restores the radius exactly — in particular from a start of 2.
(The method itself is unreachable on instances: `__init__` line 116 stores the
float argument `scale` in the instance attribute of the same name, shadowing
the method; `cam.scale(1)` raises `TypeError: 'float' object is not
callable`.) -/
theorem scale_method_zoom (st : CameraState) (delta : ℤ) :
    (OrbitCamera.scale_method st delta).radius = st.radius * (11 / 10 : ℚ) ^ (-delta) ∧
    (OrbitCamera.scale_method st delta).rot = st.rot ∧
    (OrbitCamera.scale_method st delta).look_at = st.look_at ∧
    (OrbitCamera.scale_method (OrbitCamera.scale_method st 1) (-1)).radius = st.radius ∧
    (OrbitCamera.scale_method (OrbitCamera.scale_method
        ⟨1, ![0, 0, 0], 2, 60, -1, -1⟩ 1) (-1)).radius = 2 := by
  refine ⟨rfl, rfl, rfl, ?_, ?_⟩ <;>
    · show _ * (11 / 10 : ℚ) ^ (-(1 : ℤ)) * (11 / 10 : ℚ) ^ (-(-1 : ℤ)) = _
      rw [mul_assoc, ← zpow_add₀ (by norm_num : (11 / 10 : ℚ) ≠ 0)]
      norm_num

/-- C8: for valid `near < far` and `scale > 0`, the orthographic matrix has
homogeneous entry `(3,3) = 1`, diagonal `2/(right-left)`, `2/(top-bottom)`,
`-2/(far-near)` for the symmetric volume of width and height `1/scale`
(`right = -left = (1/scale)/2`, `top = -bottom = (1/scale)/2`), depth
translation `(2,3) = -(far+near)/(far-near)`, and zero remaining translation
entries. -/
theorem orthProjection_closed_form (znear zfar scale : ℚ)
    (hnear : 0 < znear) (hfar : znear < zfar) (hscale : 0 < scale) :
    getOrthProjectionMatrix_numpy znear zfar scale 3 3 = 1 ∧
    getOrthProjectionMatrix_numpy znear zfar scale 0 0
      = 2 / (1 / scale / 2 - -(1 / scale / 2)) ∧
    getOrthProjectionMatrix_numpy znear zfar scale 1 1
      = 2 / (1 / scale / 2 - -(1 / scale / 2)) ∧
    getOrthProjectionMatrix_numpy znear zfar scale 2 2 = -2 / (zfar - znear) ∧
    getOrthProjectionMatrix_numpy znear zfar scale 2 3
      = -(zfar + znear) / (zfar - znear) ∧
    getOrthProjectionMatrix_numpy znear zfar scale 0 3 = 0 ∧
    getOrthProjectionMatrix_numpy znear zfar scale 1 3 = 0 := by
  refine ⟨?_, ?_, ?_, ?_, ?_, ?_, ?_⟩ <;>
    simp [getOrthProjectionMatrix_numpy, Matrix.of_apply]

/-- C8 witness: the closed form at `near = 1/100`, `far = 10`, `scale = 1`. -/
theorem orthProjection_closed_form_witness :
    getOrthProjectionMatrix_numpy (1 / 100) 10 1 3 3 = 1 ∧
    getOrthProjectionMatrix_numpy (1 / 100) 10 1 0 0
      = 2 / (1 / 1 / 2 - -(1 / 1 / 2)) ∧
    getOrthProjectionMatrix_numpy (1 / 100) 10 1 1 1
      = 2 / (1 / 1 / 2 - -(1 / 1 / 2)) ∧
    getOrthProjectionMatrix_numpy (1 / 100) 10 1 2 2 = -2 / (10 - 1 / 100) ∧
    getOrthProjectionMatrix_numpy (1 / 100) 10 1 2 3
      = -(10 + 1 / 100) / (10 - 1 / 100) ∧
    getOrthProjectionMatrix_numpy (1 / 100) 10 1 0 3 = 0 ∧
    getOrthProjectionMatrix_numpy (1 / 100) 10 1 1 3 = 0 :=
  orthProjection_closed_form (1 / 100) 10 1 (by norm_num) (by norm_num) (by norm_num)

/-- C9 counterexample: a bare 4-vector, numpy shape `(4,)`, is neither a
batch of 3×3 matrices nor a batch of 4-vectors, yet the shape handling of
`projection_from_intrinsics` accepts it (its last dimension is 4), so no
`InvalidArgument` error is raised: the subsequent numpy assignments broadcast
the length-1 `fx` slice over the `B = 4` batch and return a `(4, 4, 4)`
result. -/
theorem shape_check_accepts_bare_vec4 :
    isBatchOf33 [4] = false ∧ isBatchOf4 [4] = false ∧
    projection_from_intrinsics_shape_check [4] = .ok () := by
  refine ⟨rfl, rfl, rfl⟩

/-- C9 (amended): only the trailing dimensions of `K.shape` are inspected:
a nonempty shape whose last two dimensions are not `(3, 3)` and whose last
dimension is not 4 — e.g. a 2×2 matrix — raises `ValueError` (the spec's
`InvalidArgument`) at line 88. -/
theorem shape_check_invalid_raises (shape : List ℕ)
    (hne : shape ≠ [])
    (h33 : shape.drop (shape.length - 2) ≠ [3, 3])
    (h4 : shape.getLastD 0 ≠ 4) :
    projection_from_intrinsics_shape_check shape = .error .valueError := by
  unfold projection_from_intrinsics_shape_check
  rw [if_neg hne, if_neg h33, if_neg h4]

/-- C9 witness: the claim's own example, a 2×2 matrix, raises
`InvalidArgument`. -/
theorem shape_check_invalid_raises_witness :
    projection_from_intrinsics_shape_check [2, 2] = .error .valueError :=
  shape_check_invalid_raises [2, 2] (by decide) (by decide) (by decide)

/-- C2 counterexample: a camera constructed with the unrecognized projection
kind `"weird"` (and the valid convention `"opengl"`) raises no error at
construction — `__init__`/`reset` never examine the `projection` argument —
and accessing `projection_matrix` afterwards raises no error either: it
returns `None`. -/
theorem init_unknown_projection_no_error :
    OrbitCamera.initCamera ⟨800, 600, 2, 60, 1 / 100, 10, 1, "opengl", "weird"⟩
        = .ok ⟨1, ![0, 0, 0], 2, 60, -1, -1⟩ ∧
    OrbitCamera.projection_matrix trivMathLib
        ⟨800, 600, 2, 60, 1 / 100, 10, 1, "opengl", "weird"⟩
        ⟨1, ![0, 0, 0], 2, 60, -1, -1⟩ = none := by
  refine ⟨rfl, rfl⟩

/-- C2 (amended): constructing an `OrbitCamera` with an unrecognized
projection kind raises no error at all (only the convention string is
validated, by `reset`), and `projection_matrix` on such a camera silently
returns `None` instead of raising. -/
theorem init_unknown_projection_behavior (M : MathLib) (cfg : CameraConfig)
    (hconv : cfg.convention = "opengl")
    (hp : cfg.projection ≠ "perspective")
    (ho : cfg.projection ≠ "orthogonal") :
    OrbitCamera.initCamera cfg
        = .ok ⟨1, ![0, 0, 0], cfg.radius_default, cfg.fovy_default, -1, -1⟩ ∧
    OrbitCamera.projection_matrix M cfg
        ⟨1, ![0, 0, 0], cfg.radius_default, cfg.fovy_default, -1, -1⟩ = none := by
  constructor
  · rw [OrbitCamera.initCamera, OrbitCamera.reset, hconv]
    rw [if_neg (by decide), if_pos rfl]
  · rw [OrbitCamera.projection_matrix, if_neg hp, if_neg ho]

/-- C2 witness: the amended behavior at a concrete camera. -/
theorem init_unknown_projection_behavior_witness :
    OrbitCamera.initCamera ⟨800, 600, 2, 60, 1 / 100, 10, 1, "opengl", "pinhole"⟩
        = .ok ⟨1, ![0, 0, 0], 2, 60, -1, -1⟩ ∧
    OrbitCamera.projection_matrix trivMathLib
        ⟨800, 600, 2, 60, 1 / 100, 10, 1, "opengl", "pinhole"⟩
        ⟨1, ![0, 0, 0], 2, 60, -1, -1⟩ = none :=
  init_unknown_projection_behavior trivMathLib
    ⟨800, 600, 2, 60, 1 / 100, 10, 1, "opengl", "pinhole"⟩
    rfl (by decide) (by decide)

/-- C10: an `OrbitCamera` can be constructed with a projection kind other
than `"perspective"` or `"orthogonal"` without any error (only the convention
string is validated), and on such a camera `projection_matrix` raises no
error and returns no matrix: the property falls through both branches and
yields `None`. -/
theorem unknown_projection_none (M : MathLib) (cfg : CameraConfig)
    (hconv : cfg.convention = "opengl" ∨ cfg.convention = "opencv")
    (hp : cfg.projection ≠ "perspective")
    (ho : cfg.projection ≠ "orthogonal") :
    (OrbitCamera.initCamera cfg).map (OrbitCamera.projection_matrix M cfg)
      = .ok none := by
  have hpm : ∀ st, OrbitCamera.projection_matrix M cfg st = none := by
    intro st
    rw [OrbitCamera.projection_matrix, if_neg hp, if_neg ho]
  rcases hconv with h | h <;>
    · rw [OrbitCamera.initCamera, OrbitCamera.reset, h]
      simp [Except.map, hpm]

/-- C10 witness: a concrete camera with the OpenCV convention and projection
kind `"fisheye"` constructs fine and has `projection_matrix = None`. -/
theorem unknown_projection_none_witness :
    (OrbitCamera.initCamera ⟨512, 512, 3, 45, 1 / 100, 10, 1, "opencv", "fisheye"⟩).map
        (OrbitCamera.projection_matrix trivMathLib
          ⟨512, 512, 3, 45, 1 / 100, 10, 1, "opencv", "fisheye"⟩)
      = .ok none :=
  unknown_projection_none trivMathLib
    ⟨512, 512, 3, 45, 1 / 100, 10, 1, "opencv", "fisheye"⟩
    (Or.inr rfl) (by decide) (by decide)

/-- C4 counterexample: a valid batch of two 4-vectors — a `(2, 4)` array —
does not produce a 2×4×4 batch: the `(2, 1)` slice `fx = K[..., [0]]` cannot
be broadcast into the assignment target `proj[:, 0, 0]` of shape `(2,)`, so
`projection_from_intrinsics` raises `ValueError` at line 91 (with either
`flip_y`), refuting the claim for 4-vector batches of size `N ≥ 2`. -/
theorem projection_vec_pair_raises :
    projection_from_intrinsics_vec_batch [![1, 1, 0, 0], ![1, 1, 0, 0]] 4 4 1 2 (-1) false
        = .error .valueError ∧
    projection_from_intrinsics_vec_batch [![1, 1, 0, 0], ![1, 1, 0, 0]] 4 4 1 2 (-1) true
        = .error .valueError :=
  ⟨rfl, rfl⟩

/-- C4 (amended): on every valid batch of N 3×3 intrinsic matrices with
positive image size and `0 < near < far`, `projection_from_intrinsics`
returns the N×4×4 batch with entries `m[0,0] = 2*fx/w`,
`m[0,2] = (w-2*cx)/w`, `m[1,1] = 2*fy/h`, `m[1,2] = (h-2*cy)/h`,
`m[2,2] = z_sign*(far+near)/(far-near)`, `m[2,3] = -2*far*near/(far-near)`,
`m[3,2] = z_sign`, every other entry zero, the `flip_y = true` result
negating exactly the `(1,1)` entry.  The 4-vector branch as executed
completes only for a batch of one: a singleton batch returns the single
matrix with the same entries and the same `flip_y` relation, while a batch of
two or more 4-vectors raises a broadcast `ValueError` instead of returning a
batch. -/
theorem projection_from_intrinsics_entries
    (Ks : List (Matrix (Fin 3) (Fin 3) ℚ)) (V : Fin 4 → ℚ) (Vs : List (Fin 4 → ℚ))
    (h w near far zs : ℚ)
    (hh : 0 < h) (hw : 0 < w) (hn : 0 < near) (hf : near < far) :
    projection_from_intrinsics_mats Ks h w near far zs false
        = Ks.map (fun K =>
            !![2 * K 0 0 / w, 0, (w - 2 * K 0 2) / w, 0;
               0, 2 * K 1 1 / h, (h - 2 * K 1 2) / h, 0;
               0, 0, zs * (far + near) / (far - near), -2 * far * near / (far - near);
               0, 0, zs, 0]) ∧
    projection_from_intrinsics_mats Ks h w near far zs true
        = Ks.map (fun K =>
            !![2 * K 0 0 / w, 0, (w - 2 * K 0 2) / w, 0;
               0, -(2 * K 1 1 / h), (h - 2 * K 1 2) / h, 0;
               0, 0, zs * (far + near) / (far - near), -2 * far * near / (far - near);
               0, 0, zs, 0]) ∧
    projection_from_intrinsics_vec_batch [V] h w near far zs false
        = .ok [!![2 * V 0 / w, 0, (w - 2 * V 2) / w, 0;
                  0, 2 * V 1 / h, (h - 2 * V 3) / h, 0;
                  0, 0, zs * (far + near) / (far - near), -2 * far * near / (far - near);
                  0, 0, zs, 0]] ∧
    projection_from_intrinsics_vec_batch [V] h w near far zs true
        = .ok [!![2 * V 0 / w, 0, (w - 2 * V 2) / w, 0;
                  0, -(2 * V 1 / h), (h - 2 * V 3) / h, 0;
                  0, 0, zs * (far + near) / (far - near), -2 * far * near / (far - near);
                  0, 0, zs, 0]] ∧
    (2 ≤ Vs.length →
      projection_from_intrinsics_vec_batch Vs h w near far zs false
          = .error .valueError ∧
      projection_from_intrinsics_vec_batch Vs h w near far zs true
          = .error .valueError) := by
  refine ⟨?_, ?_, ?_, ?_, ?_⟩
  · simp only [projection_from_intrinsics_mats, perspElem_false_eq]
  · simp only [projection_from_intrinsics_mats, perspElem_true_eq]
  · simp [projection_from_intrinsics_vec_batch, projection_from_intrinsics_vecs,
      perspElem_false_eq]
  · simp [projection_from_intrinsics_vec_batch, projection_from_intrinsics_vecs,
      perspElem_true_eq]
  · intro hlen
    have hne : Vs.length ≠ 1 := by omega
    constructor <;> simp [projection_from_intrinsics_vec_batch, hne]

/-- C4 witness: the matrix representation of the identity intrinsics, a
singleton 4-vector batch, and a rejected pair of 4-vectors, all on a 4×4
image with `near = 1`, `far = 2`, `z_sign = -1`. -/
theorem projection_from_intrinsics_entries_witness :
    projection_from_intrinsics_mats [1] 4 4 1 2 (-1) false
        = [!![1 / 2, 0, 1, 0; 0, 1 / 2, 1, 0; 0, 0, -3, -4; 0, 0, -1, 0]] ∧
    projection_from_intrinsics_vec_batch [![1, 1, 0, 0]] 4 4 1 2 (-1) true
        = .ok [!![1 / 2, 0, 1, 0; 0, -(1 / 2), 1, 0; 0, 0, -3, -4; 0, 0, -1, 0]] ∧
    projection_from_intrinsics_vec_batch [![1, 1, 0, 0], ![1, 1, 0, 0]] 4 4 1 2 (-1) true
        = .error .valueError := by
  have hm := projection_from_intrinsics_entries [1] ![1, 1, 0, 0]
    [![1, 1, 0, 0], ![1, 1, 0, 0]] 4 4 1 2 (-1)
    (by norm_num) (by norm_num) (by norm_num) (by norm_num)
  refine ⟨hm.1.trans ?_, (hm.2.2.2.1).trans ?_, (hm.2.2.2.2 (by decide)).2⟩
  · refine congrArg (fun x => [x]) ?_
    ext i j
    fin_cases i <;> fin_cases j <;> simp [Matrix.one_apply] <;> norm_num
  · refine congrArg (fun x => Except.ok [x]) ?_
    ext i j
    fin_cases i <;> fin_cases j <;> simp <;> norm_num

/-- C3: `orbit(dx, dy)` replaces the rotation by
`from_rotvec(up * radians(-0.3*dx)) * from_rotvec(side * radians(-0.3*dy)) * rot`
— the rotation by `-0.3*dx` degrees about the fixed world up vector `(0,1,0)`
composed with the rotation by `-0.3*dy` degrees about the side axis read from
column 0 of the rotation matrix before the update, composed with the current
rotation — leaving every other state field unchanged; and `orbit(0, 0)` is a
no-op. -/
theorem orbit_composition (M : MathLib) (st : CameraState) (dx dy : ℚ) :
    (OrbitCamera.orbit M st dx dy).rot
        = M.fromRotvec (fun i => OrbitCamera.up i * M.radians (-0.3 * dx))
          * M.fromRotvec (fun i => st.rot i 0 * M.radians (-0.3 * dy))
          * st.rot ∧
    (OrbitCamera.orbit M st dx dy).look_at = st.look_at ∧
    (OrbitCamera.orbit M st dx dy).radius = st.radius ∧
    (OrbitCamera.orbit M st dx dy).fovy = st.fovy ∧
    OrbitCamera.orbit M st 0 0 = st := by
  refine ⟨rfl, rfl, rfl, rfl, ?_⟩
  have hz : ∀ v : Fin 3 → ℚ, (fun i => v i * M.radians (-0.3 * 0)) = (0 : Fin 3 → ℚ) := by
    intro v
    funext i
    simp [MathLib.radians]
  cases st with
  | mk rot look_at radius fovy z_sign y_sign =>
      simp only [OrbitCamera.orbit, hz, M.fromRotvec_zero, one_mul]

/-- C5: the `intrinsics` property is
`(focal, focal, width // 2, height // 2)` with
`focal = height / (2 * tan(radians(fovy) / 2))` and floor division for the
principal point; for a camera constructed with `W=800, H=600, fovy=60` it is
`(focal, focal, 400, 300)` with `focal = 300 / tan(30°)`. -/
theorem intrinsics_focal_formula (M : MathLib) (cfg : CameraConfig) (st : CameraState) :
    OrbitCamera.intrinsics M cfg st
        = ![(cfg.image_height : ℚ) / (2 * M.tan (M.radians st.fovy / 2)),
            (cfg.image_height : ℚ) / (2 * M.tan (M.radians st.fovy / 2)),
            ((cfg.image_width / 2 : ℕ) : ℚ), ((cfg.image_height / 2 : ℕ) : ℚ)] ∧
    (OrbitCamera.initCamera ⟨800, 600, 2, 60, 1 / 100, 10, 1, "opengl", "perspective"⟩).map
        (OrbitCamera.intrinsics M ⟨800, 600, 2, 60, 1 / 100, 10, 1, "opengl", "perspective"⟩)
      = .ok ![300 / M.tan (M.radians 30), 300 / M.tan (M.radians 30), 400, 300] := by
  refine ⟨rfl, ?_⟩
  have hi : OrbitCamera.initCamera ⟨800, 600, 2, 60, 1 / 100, 10, 1, "opengl", "perspective"⟩
      = .ok ⟨1, ![0, 0, 0], 2, 60, -1, -1⟩ := rfl
  rw [hi]
  simp only [Except.map]
  refine congrArg Except.ok ?_
  have hkey : (600 : ℚ) / (2 * M.tan (M.radians 30))
      = 300 / M.tan (M.radians 30) := by
    rcases eq_or_ne (M.tan (M.radians 30)) 0 with h | h
    · simp [h]
    · field_simp
      ring
  have h2 : M.radians (60 : ℚ) / 2 = M.radians 30 := by
    unfold MathLib.radians
    ring
  funext i
  fin_cases i <;>
    simp [OrbitCamera.intrinsics, h2, hkey]

/-- C6: on a camera with the OpenGL convention, `reset()` followed by reading
`pose` gives exactly the matrix with identity rotation block and translation
column `(0, 0, radius_default)`. -/
theorem reset_pose_opengl (cfg : CameraConfig) (hconv : cfg.convention = "opengl") :
    (OrbitCamera.reset cfg).bind (fun st => OrbitCamera.pose cfg st)
      = .ok !![1, 0, 0, 0; 0, 1, 0, 0; 0, 0, 1, cfg.radius_default; 0, 0, 0, 1] := by
  have hb : OrbitCamera.reset cfg
      = .ok ⟨1, ![0, 0, 0], cfg.radius_default, cfg.fovy_default, -1, -1⟩ := by
    rw [OrbitCamera.reset, hconv]
    rw [if_neg (by decide), if_pos rfl]
  rw [hb]
  show OrbitCamera.pose cfg _ = _
  rw [OrbitCamera.pose, hconv]
  rw [if_neg (by decide), if_pos rfl]
  refine congrArg Except.ok ?_
  ext i j
  fin_cases i <;> fin_cases j <;>
    simp [Matrix.mul_apply, Fin.sum_univ_four, Matrix.stdBasisMatrix, Matrix.one_apply,
      Matrix.of_apply, Matrix.vecHead, Matrix.vecTail,
      show ((3 : Fin 4) : ℕ) = 3 from rfl, show ((2 : Fin 4) : ℕ) = 2 from rfl,
      show ((1 : Fin 4) : ℕ) = 1 from rfl, show ((0 : Fin 4) : ℕ) = 0 from rfl]

/-- C6 witness: the concrete camera of the spec's example
(`W=800, H=600, r=2, fovy=60`, OpenGL, perspective). -/
theorem reset_pose_opengl_witness :
    (OrbitCamera.reset ⟨800, 600, 2, 60, 1 / 100, 10, 1, "opengl", "perspective"⟩).bind
        (fun st => OrbitCamera.pose ⟨800, 600, 2, 60, 1 / 100, 10, 1, "opengl", "perspective"⟩ st)
      = .ok !![1, 0, 0, 0; 0, 1, 0, 0; 0, 0, 1, 2; 0, 0, 0, 1] :=
  reset_pose_opengl ⟨800, 600, 2, 60, 1 / 100, 10, 1, "opengl", "perspective"⟩ rfl

/-- Helper: the identity is a rotation matrix. -/
theorem isRotationMatrix_one : IsRotationMatrix 1 := by
  constructor <;> simp

/-- Helper: rotation matrices are closed under multiplication. -/
theorem isRotationMatrix_mul (A B : Matrix (Fin 3) (Fin 3) ℚ)
    (hA : IsRotationMatrix A) (hB : IsRotationMatrix B) :
    IsRotationMatrix (A * B) := by
  obtain ⟨hA1, hA2⟩ := hA
  obtain ⟨hB1, hB2⟩ := hB
  constructor
  · rw [Matrix.transpose_mul]
    calc A * B * (Bᵀ * Aᵀ)
        = A * (B * Bᵀ) * Aᵀ := by
          rw [Matrix.mul_assoc, Matrix.mul_assoc, Matrix.mul_assoc]
      _ = 1 := by rw [hB1, Matrix.mul_one, hA1]
  · rw [Matrix.det_mul, hA2, hB2, one_mul]

/-- Helper: `from_rotvec` results are rotation matrices (the scipy
contract). -/
theorem isRotationMatrix_fromRotvec (M : MathLib) (v : Fin 3 → ℚ) :
    IsRotationMatrix (M.fromRotvec v) :=
  ⟨M.fromRotvec_orth v, M.fromRotvec_det v⟩

/-- Helper: every single mutating operation preserves orthonormality of the
rotation: `reset` writes the identity, `orbit` composes with two
`from_rotvec` rotations, `pan` and `zoom` do not touch `rot`. -/
theorem applyOp_rotation (M : MathLib) (cfg : CameraConfig) (st st1 : CameraState)
    (op : OrbitCamera.CamOp) (hst : IsRotationMatrix st.rot)
    (hop : OrbitCamera.applyOp M cfg st op = .ok st1) :
    IsRotationMatrix st1.rot := by
  cases op with
  | reset =>
      simp only [OrbitCamera.applyOp, OrbitCamera.reset] at hop
      split_ifs at hop
      · injection hop with h
        subst h
        exact isRotationMatrix_one
      · injection hop with h
        subst h
        exact isRotationMatrix_one
  | orbit dx dy =>
      simp only [OrbitCamera.applyOp] at hop
      injection hop with h
      subst h
      exact isRotationMatrix_mul _ _
        (isRotationMatrix_mul _ _ (isRotationMatrix_fromRotvec M _)
          (isRotationMatrix_fromRotvec M _)) hst
  | pan dx dy dz =>
      simp only [OrbitCamera.applyOp] at hop
      injection hop with h
      subst h
      exact hst
  | zoom delta =>
      simp only [OrbitCamera.applyOp] at hop
      injection hop with h
      subst h
      exact hst

/-- Helper: orthonormality of the rotation is preserved along any operation
sequence. -/
theorem applyOps_rotation (M : MathLib) (cfg : CameraConfig)
    (ops : List OrbitCamera.CamOp) :
    ∀ st st1 : CameraState, IsRotationMatrix st.rot →
      OrbitCamera.applyOps M cfg st ops = .ok st1 → IsRotationMatrix st1.rot := by
  induction ops with
  | nil =>
      intro st st1 hst hrun
      injection hrun with h
      subst h
      exact hst
  | cons op ops ih =>
      intro st st1 hst hrun
      unfold OrbitCamera.applyOps at hrun
      cases hop : OrbitCamera.applyOp M cfg st op with
      | error e =>
          rw [hop] at hrun
          simp [Except.bind] at hrun
      | ok stm =>
          rw [hop] at hrun
          simp only [Except.bind] at hrun
          exact ih stm st1 (applyOp_rotation M cfg st stm op hst hop) hrun

/-- C7: after any sequence of `reset` / `orbit` / `pan` / `zoom` operations
on a constructed `OrbitCamera`, the rotation state is still an orthonormal
3×3 rotation matrix. -/
theorem rotation_stays_orthonormal (M : MathLib) (cfg : CameraConfig)
    (st0 st1 : CameraState) (ops : List OrbitCamera.CamOp)
    (hinit : OrbitCamera.initCamera cfg = .ok st0)
    (hrun : OrbitCamera.applyOps M cfg st0 ops = .ok st1) :
    IsRotationMatrix st1.rot := by
  have hst0 : IsRotationMatrix st0.rot := by
    unfold OrbitCamera.initCamera OrbitCamera.reset at hinit
    split_ifs at hinit
    · injection hinit with h
      subst h
      exact isRotationMatrix_one
    · injection hinit with h
      subst h
      exact isRotationMatrix_one
  exact applyOps_rotation M cfg ops st0 st1 hst0 hrun

/-- C7 witness: a concrete run (`reset` on the spec's example camera). -/
theorem rotation_stays_orthonormal_witness :
    IsRotationMatrix ((⟨1, ![0, 0, 0], 2, 60, -1, -1⟩ : CameraState)).rot :=
  rotation_stays_orthonormal trivMathLib
    ⟨800, 600, 2, 60, 1 / 100, 10, 1, "opengl", "perspective"⟩
    ⟨1, ![0, 0, 0], 2, 60, -1, -1⟩ ⟨1, ![0, 0, 0], 2, 60, -1, -1⟩
    [OrbitCamera.CamOp.reset] rfl rfl
